import Mathlib

/-!
Shallow embedding of `fovis_ros/src/stereo_odometer.cpp` (braincorp/fovis).

The file models the pose-integration and publishing pipeline of the
`StereoOdometer` node: one-time calibration derivation (`initOdometer`,
lines 62-105), per-frame publishing (`mountAndPublish`, lines 107-194) and
the per-frame callback (`imageCallback`, lines 196-247).

Machine doubles are modelled as rationals (exact field arithmetic); the
external visual-odometry engine is opaque, so its per-frame outputs (status
code, absolute pose, incremental motion, covariance) are inputs of the
embedded step function.  ROS message fields that the code never assigns are
modelled as `Option.none` ("unset").
-/

namespace StereoOdometer

/-- A 3-vector of rationals, standing for the various `Eigen::Vector3d` /
`tf::Vector3` / geometry-message vector values in the source. -/
structure Vec3 where
  x : ℚ
  y : ℚ
  z : ℚ
deriving DecidableEq

/-- A quaternion in `x, y, z, w` component order, as used by
`Eigen::Quaterniond` accessors and `tf::Quaternion` in the source. -/
structure Quat where
  x : ℚ
  y : ℚ
  z : ℚ
  w : ℚ
deriving DecidableEq

/-! ### Covariance reindexing (lines 144-146)

The source writes, for all `0 <= i,j < 6`:
`odom_msg.twist.covariance[j*6+i] = motion_cov(i,j);`
We embed the double loop literally as a fold of point updates over an
array of 36 cells. -/

/-- Flat index `j*6+i` into the 36-cell covariance array, as computed by the
assignment `odom_msg.twist.covariance[j*6+i]` in the source. -/
def flatIdx (i j : Fin 6) : Fin 36 :=
  ⟨j.val * 6 + i.val, by have hi := i.isLt; have hj := j.isLt; omega⟩

/-- Inner loop `for (int j=0;j<6;j++)` of the covariance copy: for a fixed
outer index `i`, write `motion_cov(i,j)` to cell `j*6+i` for each `j`. -/
def covWriteRow (cov : Fin 6 → Fin 6 → ℚ) (i : Fin 6) (acc : Fin 36 → ℚ) :
    Fin 36 → ℚ :=
  (List.finRange 6).foldl
    (fun acc2 j => Function.update acc2 (flatIdx i j) (cov i j)) acc

/-- Outer loop `for (int i=0;i<6;i++)` of the covariance copy; the array
starts at the message default (all zeroes). -/
def covLoop (cov : Fin 6 → Fin 6 → ℚ) : Fin 36 → ℚ :=
  (List.finRange 6).foldl (fun acc i => covWriteRow cov i acc) (fun _ => 0)

lemma flatIdx_mod (i j : Fin 6) : (flatIdx i j).val % 6 = i.val := by
  have hi := i.isLt; have hj := j.isLt
  simp only [flatIdx]
  omega

lemma flatIdx_div (i j : Fin 6) : (flatIdx i j).val / 6 = j.val := by
  have hi := i.isLt; have hj := j.isLt
  simp only [flatIdx]
  omega

lemma flatIdx_ne_of_fst_ne {i i' j j' : Fin 6} (h : i ≠ i') :
    flatIdx i j ≠ flatIdx i' j' := by
  intro hc
  apply h
  have := congrArg (fun k : Fin 36 => k.val % 6) hc
  simp only [flatIdx_mod] at this
  exact Fin.ext this

lemma flatIdx_ne_of_snd_ne {i i' j j' : Fin 6} (h : j ≠ j') :
    flatIdx i j ≠ flatIdx i' j' := by
  intro hc
  apply h
  have := congrArg (fun k : Fin 36 => k.val / 6) hc
  simp only [flatIdx_div] at this
  exact Fin.ext this

lemma innerFold_ne (cov : Fin 6 → Fin 6 → ℚ) (i : Fin 6) (l : List (Fin 6))
    (acc : Fin 36 → ℚ) (k : Fin 36) (hk : k.val % 6 ≠ i.val) :
    (l.foldl (fun acc2 j => Function.update acc2 (flatIdx i j) (cov i j)) acc) k
      = acc k := by
  induction l generalizing acc with
  | nil => rfl
  | cons j l ih =>
      rw [List.foldl_cons, ih]
      rw [Function.update_apply]
      have hne : k ≠ flatIdx i j := by
        intro hc
        exact hk (by rw [hc, flatIdx_mod])
      simp [hne]

lemma innerFold_notmem (cov : Fin 6 → Fin 6 → ℚ) (i j : Fin 6)
    (l : List (Fin 6)) (acc : Fin 36 → ℚ) (hj : j ∉ l) :
    (l.foldl (fun acc2 j' => Function.update acc2 (flatIdx i j') (cov i j')) acc)
      (flatIdx i j) = acc (flatIdx i j) := by
  induction l generalizing acc with
  | nil => rfl
  | cons j' l ih =>
      have hj1 : j ≠ j' := fun h => hj (h ▸ List.mem_cons_self j' l)
      have hj2 : j ∉ l := fun h => hj (List.mem_cons_of_mem j' h)
      rw [List.foldl_cons, ih _ hj2, Function.update_apply]
      have hne : flatIdx i j ≠ flatIdx i j' := flatIdx_ne_of_snd_ne hj1
      simp [hne]

lemma innerFold_mem (cov : Fin 6 → Fin 6 → ℚ) (i j : Fin 6) (l : List (Fin 6))
    (acc : Fin 36 → ℚ) (hj : j ∈ l) (hnd : l.Nodup) :
    (l.foldl (fun acc2 j' => Function.update acc2 (flatIdx i j') (cov i j')) acc)
      (flatIdx i j) = cov i j := by
  induction l generalizing acc with
  | nil => cases hj
  | cons j' l ih =>
      rcases List.mem_cons.mp hj with h | h
      · subst h
        rw [List.foldl_cons,
          innerFold_notmem cov i j l _ (List.Nodup.not_mem hnd)]
        simp [Function.update_apply]
      · exact ih _ h (List.Nodup.of_cons hnd)

lemma covWriteRow_apply_ne (cov : Fin 6 → Fin 6 → ℚ) (i : Fin 6)
    (acc : Fin 36 → ℚ) (k : Fin 36) (hk : k.val % 6 ≠ i.val) :
    covWriteRow cov i acc k = acc k :=
  innerFold_ne cov i (List.finRange 6) acc k hk

lemma covWriteRow_apply (cov : Fin 6 → Fin 6 → ℚ) (i j : Fin 6)
    (acc : Fin 36 → ℚ) : covWriteRow cov i acc (flatIdx i j) = cov i j :=
  innerFold_mem cov i j (List.finRange 6) acc (List.mem_finRange j)
    (List.nodup_finRange 6)

lemma outerFold_notmem (cov : Fin 6 → Fin 6 → ℚ) (l : List (Fin 6))
    (acc : Fin 36 → ℚ) (i j : Fin 6) (hi : i ∉ l) :
    (l.foldl (fun a i' => covWriteRow cov i' a) acc) (flatIdx i j)
      = acc (flatIdx i j) := by
  induction l generalizing acc with
  | nil => rfl
  | cons i' l ih =>
      have hi1 : i ≠ i' := fun h => hi (h ▸ List.mem_cons_self i' l)
      have hi2 : i ∉ l := fun h => hi (List.mem_cons_of_mem i' h)
      rw [List.foldl_cons, ih _ hi2]
      refine covWriteRow_apply_ne cov i' acc _ ?_
      rw [flatIdx_mod]
      exact fun h => hi1 (Fin.ext h)

lemma outerFold_mem (cov : Fin 6 → Fin 6 → ℚ) (l : List (Fin 6))
    (acc : Fin 36 → ℚ) (i j : Fin 6) (hi : i ∈ l) (hnd : l.Nodup) :
    (l.foldl (fun a i' => covWriteRow cov i' a) acc) (flatIdx i j)
      = cov i j := by
  induction l generalizing acc with
  | nil => cases hi
  | cons i' l ih =>
      rcases List.mem_cons.mp hi with h | h
      · subst h
        rw [List.foldl_cons,
          outerFold_notmem cov l _ i j (List.Nodup.not_mem hnd)]
        exact covWriteRow_apply cov i j acc
      · exact ih _ h (List.Nodup.of_cons hnd)

/-- Net effect of the covariance copy loop: the cell at flat index `j*6+i`
holds the source entry `motion_cov(i,j)`. -/
lemma covLoop_apply (cov : Fin 6 → Fin 6 → ℚ) (i j : Fin 6) :
    covLoop cov (flatIdx i j) = cov i j :=
  outerFold_mem cov (List.finRange 6) _ i j (List.mem_finRange i)
    (List.nodup_finRange 6)

/-! ### Calibration derivation (`initOdometer`, lines 62-105)

`image_geometry::StereoCameraModel` is an external collaborator; we model
the values the source reads from it (`model.left().cx()` etc. and
`model.baseline()`) as an input record. -/

/-- Per-camera pinhole values read from the external stereo camera model. -/
structure PinholeModel where
  cx : ℚ
  cy : ℚ
  fx : ℚ
  fy : ℚ
deriving DecidableEq

/-- Values the source reads from `image_geometry::StereoCameraModel` after
`fromCameraInfo`: left/right pinhole parameters and the stereo baseline. -/
structure StereoModel where
  left : PinholeModel
  right : PinholeModel
  baseline : ℚ
deriving DecidableEq

/-- Image size fields read directly from a camera-info message. -/
structure ImageSize where
  width : ℕ
  height : ℕ
deriving DecidableEq

/-- Mirror of `fovis::CameraIntrinsicsParameters` as filled in lines 72-86. -/
structure CameraIntrinsicsParameters where
  cx : ℚ
  cy : ℚ
  fx : ℚ
  fy : ℚ
  width : ℕ
  height : ℕ
deriving DecidableEq

/-- Mirror of `fovis::StereoCalibrationParameters` as filled in lines 88-97.
The rotation is a quaternion in `w, x, y, z` component order (fovis
convention), the translation a 3-vector. -/
structure StereoCalibrationParameters where
  left_parameters : CameraIntrinsicsParameters
  right_parameters : CameraIntrinsicsParameters
  right_to_left_rotation : Fin 4 → ℚ
  right_to_left_translation : Fin 3 → ℚ

/-- The two engine objects constructed once in lines 99-103: the stereo-depth
producer (from the full stereo calibration) and the visual odometer (from the
left-camera rectification). -/
structure EngineHandles where
  stereoCalibration : StereoCalibrationParameters
  rectification : CameraIntrinsicsParameters

/-- Embedding of `StereoOdometer::initOdometer` (lines 62-105): build left and
right intrinsics from the camera model and message sizes, then the stereo
calibration with rotation quaternion `(1,0,0,0)` and translation
`(-baseline, 0, 0)`. -/
def initOdometer (model : StereoModel) (lsize rsize : ImageSize) :
    EngineHandles :=
  let left_parameters : CameraIntrinsicsParameters :=
    { cx := model.left.cx, cy := model.left.cy
      fx := model.left.fx, fy := model.left.fy
      width := lsize.width, height := lsize.height }
  let right_parameters : CameraIntrinsicsParameters :=
    { cx := model.right.cx, cy := model.right.cy
      fx := model.right.fx, fy := model.right.fy
      width := rsize.width, height := rsize.height }
  { stereoCalibration :=
      { left_parameters := left_parameters
        right_parameters := right_parameters
        right_to_left_rotation := ![1, 0, 0, 0]
        right_to_left_translation := ![-model.baseline, 0, 0] }
    rectification := left_parameters }

/-- The identity rotation as a quaternion in `w, x, y, z` order. -/
def identityQuaternionWXYZ : Fin 4 → ℚ := ![1, 0, 0, 0]

/-- Reassemble a `w, x, y, z` component array into a `Quat` record. -/
def quatOfWXYZ (a : Fin 4 → ℚ) : Quat :=
  { x := a 1, y := a 2, z := a 3, w := a 0 }

/-! ### tf rigid transforms (lines 160-190)

`tf::Transform` stores a `3x3` rotation basis and an origin; composition is
`(A*B).basis = A.basis * B.basis`, `(A*B).origin = A.basis * B.origin +
A.origin`, and `inverse()` is `(basisᵀ, basisᵀ * (-origin))`. -/

/-- Model of `tf::Transform`: rotation basis plus origin. -/
structure TfTransform where
  basis : Matrix (Fin 3) (Fin 3) ℚ
  origin : Fin 3 → ℚ

/-- Composition `a * b` of `tf::Transform`s. -/
def TfTransform.mul (a b : TfTransform) : TfTransform :=
  { basis := a.basis * b.basis
    origin := a.basis.mulVec b.origin + a.origin }

/-- `tf::Transform::inverse()`. -/
def TfTransform.inverse (a : TfTransform) : TfTransform :=
  { basis := a.basis.transpose
    origin := a.basis.transpose.mulVec (-a.origin) }

/-- `tf::Transform` identity, as produced by `setIdentity()` (line 176). -/
def TfTransform.identity : TfTransform :=
  { basis := 1, origin := 0 }

/-- Conversion of a quaternion into a rotation basis, as done by
`tf::Matrix3x3::setRotation` when a `tf::Transform` is built from a
`tf::Quaternion` (line 182). -/
def quatToBasis (q : Quat) : Matrix (Fin 3) (Fin 3) ℚ :=
  let d := q.x * q.x + q.y * q.y + q.z * q.z + q.w * q.w
  let s := 2 / d
  let xs := q.x * s
  let ys := q.y * s
  let zs := q.z * s
  let wx := q.w * xs
  let wy := q.w * ys
  let wz := q.w * zs
  let xx := q.x * xs
  let xy := q.x * ys
  let xz := q.x * zs
  let yy := q.y * ys
  let yz := q.y * zs
  let zz := q.z * zs
  Matrix.of ![![1 - (yy + zz), xy - wz, xz + wy],
              ![xy + wz, 1 - (xx + zz), yz - wx],
              ![xz - wy, yz + wx, 1 - (xx + yy)]]

/-- The `tf::Transform pose_transform` built from the pose quaternion and
translation in lines 180-182. -/
def poseTfTransform (translation : Vec3) (rotation : Quat) : TfTransform :=
  { basis := quatToBasis rotation
    origin := ![translation.x, translation.y, translation.z] }

/-- Line 185: `base_to_sensor * pose_transform * base_to_sensor.inverse()`. -/
def composeBaseTransform (baseToSensor poseTransform : TfTransform) :
    TfTransform :=
  (baseToSensor.mul poseTransform).mul baseToSensor.inverse

/-! ### Per-frame publishing (`mountAndPublish`, lines 107-194) -/

/-- Node configuration read from parameters in the constructor
(lines 51-54). -/
structure Config where
  odomFrameId : String
  baseLinkFrameId : String
  sensorFrameId : String
  publishTf : Bool

/-- Record update helper used to state properties that hold for any value of
`publish_tf` with the frame ids fixed. -/
def Config.withPublishTf (cfg : Config) (b : Bool) : Config :=
  { cfg with publishTf := b }

/-- Persistent per-node state touched by `mountAndPublish`: the timestamp of
the last successful frame (`last_time_`, zero-initialized by `ros::Time`),
and the last time the lookup warning fired (state of the throttled warning,
see `throttleWarn`). -/
structure OdoState where
  lastTime : ℚ
  lastWarn : Option ℚ

/-- Linear and angular velocity, `odom_msg.twist.twist`. -/
structure Twist where
  linear : Vec3
  angular : Vec3
deriving DecidableEq

/-- Fields of the outgoing `nav_msgs::Odometry` that the source assigns.
The twist is an `Option`: the source leaves the velocity fields untouched
when no velocity can be computed, which we model as `none`. -/
structure OdomMsg where
  stamp : ℚ
  frameId : String
  childFrameId : String
  position : Vec3
  orientation : Quat
  twist : Option Twist
  covariance : Fin 36 → ℚ

/-- Fields of the outgoing `geometry_msgs::PoseStamped` (lines 150-154). -/
structure PoseMsg where
  stamp : ℚ
  frameId : String
  position : Vec3
  orientation : Quat

/-- The `tf::StampedTransform` broadcast in lines 188-190. -/
structure StampedTfTransform where
  transform : TfTransform
  stamp : ℚ
  frameId : String
  childFrameId : String

/-- Everything one call of `mountAndPublish` sends outward: the odometry
message, the pose message, the optional transform broadcast, and whether the
lookup-unavailable warning fired. -/
structure FrameOutput where
  odom : OdomMsg
  pose : PoseMsg
  tfOut : Option StampedTfTransform
  warned : Bool

/-- Velocity computation of lines 126-142: populated only when `last_time_`
is nonzero and the elapsed time is positive; each linear component is the
incremental translation component over `dt`, each angular component is the
angle-axis axis component times the angle over `dt`. -/
def computeTwist (lastTime timestamp : ℚ) (lastTranslation aaAxis : Vec3)
    (aaAngle : ℚ) : Option Twist :=
  if lastTime = 0 then none
  else
    let dt := timestamp - lastTime
    if 0 < dt then
      some
        { linear :=
            { x := lastTranslation.x / dt
              y := lastTranslation.y / dt
              z := lastTranslation.z / dt }
          angular :=
            { x := aaAxis.x * aaAngle / dt
              y := aaAxis.y * aaAngle / dt
              z := aaAxis.z * aaAngle / dt } }
    else none

/-- Modelled from the spec: the rate-limited warning gate of lines 171-174.
The reference uses a time-throttled logging macro whose implementation lives
outside this repository; per the spec it warns "at most once per fixed
interval, e.g. 10 time-units".  The gate fires when no warning has fired yet
or at least 10 time-units have elapsed since the last one, and records the
firing time. -/
def throttleWarn (lastWarn : Option ℚ) (now : ℚ) : Bool × Option ℚ :=
  match lastWarn with
  | none => (true, some now)
  | some t0 => if t0 + 10 ≤ now then (true, some now) else (false, some t0)

/-- Odometry message assembly of lines 114-146: header, pose fields, the
twist of `computeTwist`, and the reindexed covariance of `covLoop`. -/
def odomMessage (cfg : Config) (st : OdoState) (translation : Vec3)
    (rotation : Quat) (lastTranslation aaAxis : Vec3) (aaAngle : ℚ)
    (motionCov : Fin 6 → Fin 6 → ℚ) (timestamp : ℚ) : OdomMsg :=
  { stamp := timestamp
    frameId := cfg.odomFrameId
    childFrameId := cfg.baseLinkFrameId
    position := translation
    orientation := rotation
    twist := computeTwist st.lastTime timestamp lastTranslation aaAxis aaAngle
    covariance := covLoop motionCov }

/-- Pose message assembly of lines 150-154: it copies the odometry pose and
header, then overwrites the frame id with the odometry child frame id. -/
def poseMessage (odom : OdomMsg) : PoseMsg :=
  { stamp := odom.stamp
    frameId := odom.childFrameId
    position := odom.position
    orientation := odom.orientation }

/-- Transform branch of lines 157-191: when `publish_tf_` is set, resolve
the base-to-sensor offset (substituting identity and firing the throttled
warning when the lookup is unavailable), compose
`base_to_sensor * pose_transform * base_to_sensor.inverse()`, and broadcast
it stamped with the frame timestamp from odom frame to base-link frame.
Returns the optional broadcast, whether the warning fired, and the new
throttle state. -/
def tfBranch (cfg : Config) (st : OdoState) (canTransform : Bool)
    (baseToSensor : TfTransform) (translation : Vec3) (rotation : Quat)
    (timestamp : ℚ) : Option StampedTfTransform × Bool × Option ℚ :=
  if cfg.publishTf then
    let resolved : TfTransform × Bool × Option ℚ :=
      if canTransform then (baseToSensor, false, st.lastWarn)
      else
        let tw := throttleWarn st.lastWarn timestamp
        (TfTransform.identity, tw.1, tw.2)
    let baseTransform :=
      composeBaseTransform resolved.1 (poseTfTransform translation rotation)
    (some
      { transform := baseTransform
        stamp := timestamp
        frameId := cfg.odomFrameId
        childFrameId := cfg.baseLinkFrameId },
     resolved.2.1, resolved.2.2)
  else (none, false, st.lastWarn)

/-- Embedding of `StereoOdometer::mountAndPublish` (lines 107-194).  The
engine is opaque, so the pose (translation plus rotation quaternion), the
incremental motion (translation plus angle-axis) and the motion covariance
are inputs.  Returns the new persistent state (`last_time_` set to the frame
timestamp, line 193, and the throttle state) together with the outward
messages. -/
def mountAndPublish (cfg : Config) (st : OdoState) (translation : Vec3)
    (rotation : Quat) (lastTranslation aaAxis : Vec3) (aaAngle : ℚ)
    (motionCov : Fin 6 → Fin 6 → ℚ) (canTransform : Bool)
    (baseToSensor : TfTransform) (timestamp : ℚ) :
    OdoState × FrameOutput :=
  let odom := odomMessage cfg st translation rotation lastTranslation aaAxis
    aaAngle motionCov timestamp
  let pose := poseMessage odom
  let tfRes := tfBranch cfg st canTransform baseToSensor translation rotation
    timestamp
  ({ lastTime := timestamp, lastWarn := tfRes.2.2 },
   { odom := odom, pose := pose, tfOut := tfRes.1, warned := tfRes.2.1 })

/-! ### Per-frame callback (`imageCallback`, lines 196-247) -/

/-- Mirror of `fovis::MotionEstimateStatusCode`. -/
inductive MotionEstimateStatusCode where
  | NO_DATA
  | SUCCESS
  | INSUFFICIENT_INLIERS
  | OPTIMIZATION_FAILURE
  | REPROJECTION_ERROR
deriving DecidableEq

/-- One synchronized image-pair event, together with the values the opaque
external collaborators produce for it: the stereo camera model derived from
the calibration messages, the image sizes, and the engine's outputs after
`processFrame` (status, absolute pose as translation plus quaternion,
incremental motion as translation plus angle-axis, motion covariance), plus
the frame-offset lookup result available at publish time. -/
structure FrameEvent where
  stereoModel : StereoModel
  leftSize : ImageSize
  rightSize : ImageSize
  status : MotionEstimateStatusCode
  poseTranslation : Vec3
  poseRotation : Quat
  motionTranslation : Vec3
  motionAxis : Vec3
  motionAngle : ℚ
  motionCov : Fin 6 → Fin 6 → ℚ
  canTransform : Bool
  baseToSensor : TfTransform
  timestamp : ℚ

/-- Persistent node state across image-pair events: the lazily constructed
engine handles (`visual_odometer_` / `stereo_depth_`, `none` before the
first event), a count of how many times the engine was constructed (for
stating the once-only property), and the `mountAndPublish` state. -/
structure NodeState where
  engine : Option EngineHandles
  initCount : ℕ
  odo : OdoState

/-- Node state at process start: no engine, `last_time_` zero, no warning
fired yet. -/
def initialNodeState : NodeState :=
  { engine := none, initCount := 0, odo := { lastTime := 0, lastWarn := none } }

/-- Embedding of `StereoOdometer::imageCallback` (lines 196-247): construct
the engine on the first event only (lines 202-208), feed the frame to the
engine (opaque; its outputs ride on the event), and on `SUCCESS` run
`mountAndPublish` with the left image timestamp; on any other status emit
nothing and leave the publishing state untouched. -/
def imageCallbackStep (cfg : Config) (st : NodeState) (ev : FrameEvent) :
    NodeState × Option FrameOutput :=
  let engineInit : EngineHandles × ℕ :=
    match st.engine with
    | none => (initOdometer ev.stereoModel ev.leftSize ev.rightSize, 1)
    | some h => (h, 0)
  if ev.status = MotionEstimateStatusCode.SUCCESS then
    let res := mountAndPublish cfg st.odo ev.poseTranslation ev.poseRotation
      ev.motionTranslation ev.motionAxis ev.motionAngle ev.motionCov
      ev.canTransform ev.baseToSensor ev.timestamp
    ({ engine := some engineInit.1, initCount := st.initCount + engineInit.2
       odo := res.1 }, some res.2)
  else
    ({ engine := some engineInit.1, initCount := st.initCount + engineInit.2
       odo := st.odo }, none)

/-- Fold of `imageCallbackStep` over a sequence of image-pair events. -/
def runEvents (cfg : Config) : NodeState → List FrameEvent → NodeState
  | st, [] => st
  | st, ev :: evs => runEvents cfg (imageCallbackStep cfg st ev).1 evs

/-! ### Helper lemmas -/

lemma computeTwist_isSome (lastTime timestamp : ℚ) (lastTranslation aaAxis : Vec3)
    (aaAngle : ℚ) :
    (computeTwist lastTime timestamp lastTranslation aaAxis aaAngle).isSome
      ↔ lastTime ≠ 0 ∧ 0 < timestamp - lastTime := by
  unfold computeTwist
  split_ifs with h1 <;> simp_all

lemma computeTwist_eq_none (lastTime timestamp : ℚ)
    (lastTranslation aaAxis : Vec3) (aaAngle : ℚ)
    (h : lastTime = 0 ∨ timestamp - lastTime ≤ 0) :
    computeTwist lastTime timestamp lastTranslation aaAxis aaAngle = none := by
  rcases h with h | h
  · simp [computeTwist, h]
  · have h2 : ¬ (0 < timestamp - lastTime) := not_lt.mpr h
    simp [computeTwist, h2]

lemma composeBaseTransform_identity (P : TfTransform) :
    composeBaseTransform TfTransform.identity P = P := by
  cases P with
  | mk basis origin =>
      simp [composeBaseTransform, TfTransform.mul, TfTransform.inverse,
        TfTransform.identity, Matrix.transpose_one, Matrix.one_mulVec,
        Matrix.mulVec_zero, Matrix.mul_one, Matrix.one_mul]

lemma quatOfWXYZ_identity : quatOfWXYZ identityQuaternionWXYZ =
    { x := 0, y := 0, z := 0, w := 1 } := by
  simp [quatOfWXYZ, identityQuaternionWXYZ]

lemma quatToBasis_identityQuat :
    quatToBasis { x := 0, y := 0, z := 0, w := 1 } = 1 := by
  ext i j
  fin_cases i <;> fin_cases j <;>
    norm_num [quatToBasis, Matrix.one_apply, Matrix.vecHead, Matrix.vecTail,
      Fin.ext_iff]

/-! ### Claims -/

/-- C1: For every successful frame, the 6x6 motion covariance is reindexed
into the outward twist covariance by transposition without altering values:
the value at source index `(i,j)` is written to outward flat index `j*6+i`
(`flatIdx i j`), for all `0 <= i,j < 6`. -/
theorem odom_covariance_is_motion_cov_transposed (cfg : Config)
    (st : OdoState) (translation : Vec3) (rotation : Quat)
    (lastTranslation aaAxis : Vec3) (aaAngle : ℚ)
    (motionCov : Fin 6 → Fin 6 → ℚ) (canTransform : Bool)
    (baseToSensor : TfTransform) (timestamp : ℚ) (i j : Fin 6) :
    (mountAndPublish cfg st translation rotation lastTranslation aaAxis
      aaAngle motionCov canTransform baseToSensor timestamp).2.odom.covariance
        (flatIdx i j) = motionCov i j := by
  show covLoop motionCov (flatIdx i j) = motionCov i j
  exact covLoop_apply motionCov i j

/-- C2: the emitted odometry's velocity fields are populated iff a previous
successful frame exists (`last_time_` nonzero) and the elapsed time is
positive; otherwise they are left unset (`none`), not zero. -/
theorem odom_twist_populated_iff_prev_and_dt_pos (cfg : Config)
    (st : OdoState) (translation : Vec3) (rotation : Quat)
    (lastTranslation aaAxis : Vec3) (aaAngle : ℚ)
    (motionCov : Fin 6 → Fin 6 → ℚ) (canTransform : Bool)
    (baseToSensor : TfTransform) (timestamp : ℚ) :
    ((mountAndPublish cfg st translation rotation lastTranslation aaAxis
        aaAngle motionCov canTransform baseToSensor timestamp).2.odom.twist.isSome
      ↔ st.lastTime ≠ 0 ∧ 0 < timestamp - st.lastTime) ∧
    (st.lastTime = 0 ∨ timestamp - st.lastTime ≤ 0 →
      (mountAndPublish cfg st translation rotation lastTranslation aaAxis
        aaAngle motionCov canTransform baseToSensor timestamp).2.odom.twist
        = none) := by
  constructor
  · exact computeTwist_isSome st.lastTime timestamp lastTranslation aaAxis
      aaAngle
  · exact computeTwist_eq_none st.lastTime timestamp lastTranslation aaAxis
      aaAngle

/-- Witness for C2 at concrete inputs: with the last successful frame at
t = 1 and the current frame at t = 2 the velocity fields are populated, and
the unset-when-degenerate implication holds there as well. -/
theorem odom_twist_populated_iff_witness :
    ((mountAndPublish
        { odomFrameId := "/odom", baseLinkFrameId := "/base_link"
          sensorFrameId := "/camera", publishTf := true }
        { lastTime := 1, lastWarn := none }
        { x := 0, y := 0, z := 0 } { x := 0, y := 0, z := 0, w := 1 }
        { x := 1, y := 0, z := 0 } { x := 0, y := 0, z := 1 } 0
        (fun _ _ => 0) true TfTransform.identity 2).2.odom.twist.isSome
      ↔ (1 : ℚ) ≠ 0 ∧ 0 < (2 : ℚ) - 1) ∧
    ((1 : ℚ) = 0 ∨ (2 : ℚ) - 1 ≤ 0 →
      (mountAndPublish
        { odomFrameId := "/odom", baseLinkFrameId := "/base_link"
          sensorFrameId := "/camera", publishTf := true }
        { lastTime := 1, lastWarn := none }
        { x := 0, y := 0, z := 0 } { x := 0, y := 0, z := 0, w := 1 }
        { x := 1, y := 0, z := 0 } { x := 0, y := 0, z := 1 } 0
        (fun _ _ => 0) true TfTransform.identity 2).2.odom.twist = none) :=
  odom_twist_populated_iff_prev_and_dt_pos
    { odomFrameId := "/odom", baseLinkFrameId := "/base_link"
      sensorFrameId := "/camera", publishTf := true }
    { lastTime := 1, lastWarn := none }
    { x := 0, y := 0, z := 0 } { x := 0, y := 0, z := 0, w := 1 }
    { x := 1, y := 0, z := 0 } { x := 0, y := 0, z := 1 } 0
    (fun _ _ => 0) true TfTransform.identity 2

/-- C6: when a previous successful frame exists and the elapsed time is
positive, each linear velocity component is the corresponding incremental
translation component divided by `dt`, and each angular velocity component
is the angle-axis axis component times the angle divided by `dt`. -/
theorem twist_is_incremental_motion_over_dt (cfg : Config) (st : OdoState)
    (translation : Vec3) (rotation : Quat) (lastTranslation aaAxis : Vec3)
    (aaAngle : ℚ) (motionCov : Fin 6 → Fin 6 → ℚ) (canTransform : Bool)
    (baseToSensor : TfTransform) (timestamp : ℚ)
    (h1 : st.lastTime ≠ 0) (h2 : 0 < timestamp - st.lastTime) :
    (mountAndPublish cfg st translation rotation lastTranslation aaAxis
      aaAngle motionCov canTransform baseToSensor timestamp).2.odom.twist
      = some
        { linear :=
            { x := lastTranslation.x / (timestamp - st.lastTime)
              y := lastTranslation.y / (timestamp - st.lastTime)
              z := lastTranslation.z / (timestamp - st.lastTime) }
          angular :=
            { x := aaAxis.x * aaAngle / (timestamp - st.lastTime)
              y := aaAxis.y * aaAngle / (timestamp - st.lastTime)
              z := aaAxis.z * aaAngle / (timestamp - st.lastTime) } } := by
  show computeTwist st.lastTime timestamp lastTranslation aaAxis aaAngle = _
  unfold computeTwist
  simp [h1, h2]

/-- Concrete configuration used by the witness scenarios. -/
def sampleConfig : Config :=
  { odomFrameId := "/odom", baseLinkFrameId := "/base_link"
    sensorFrameId := "/camera", publishTf := true }

/-- Witness for C6, the spec scenario: two successful frames 0.1s apart
(previous at t=1, current at t=1.1) with incremental translation
(0.01, 0, 0) yield linear velocity (0.1, 0, 0) and zero angular velocity. -/
theorem twist_is_incremental_motion_over_dt_witness :
    (mountAndPublish sampleConfig { lastTime := 1, lastWarn := none }
      { x := 0, y := 0, z := 0 } { x := 0, y := 0, z := 0, w := 1 }
      { x := 1/100, y := 0, z := 0 } { x := 0, y := 0, z := 1 } 0
      (fun _ _ => 0) true TfTransform.identity (11/10)).2.odom.twist
      = some
        { linear := { x := 1/10, y := 0, z := 0 }
          angular := { x := 0, y := 0, z := 0 } } := by
  have h := twist_is_incremental_motion_over_dt sampleConfig
    { lastTime := 1, lastWarn := none }
    { x := 0, y := 0, z := 0 } { x := 0, y := 0, z := 0, w := 1 }
    { x := 1/100, y := 0, z := 0 } { x := 0, y := 0, z := 1 } 0
    (fun _ _ => 0) true TfTransform.identity (11/10)
    (by norm_num) (by norm_num)
  rw [h]
  norm_num

/-- C4: for every valid calibration input with baseline > 0, the derived
stereo extrinsics have right-to-left rotation equal to the identity (both as
the fovis identity quaternion `(1,0,0,0)` in `w,x,y,z` order and as the
identity rotation basis it denotes) and right-to-left translation exactly
`(-baseline, 0, 0)`. -/
theorem initOdometer_extrinsics_identity_and_baseline (model : StereoModel)
    (lsize rsize : ImageSize) (h : 0 < model.baseline) :
    (initOdometer model lsize rsize).stereoCalibration.right_to_left_rotation
        = identityQuaternionWXYZ ∧
    quatToBasis (quatOfWXYZ
      (initOdometer model lsize rsize).stereoCalibration.right_to_left_rotation)
        = 1 ∧
    (initOdometer model lsize rsize).stereoCalibration.right_to_left_translation
        = ![-model.baseline, 0, 0] := by
  refine ⟨rfl, ?_, rfl⟩
  show quatToBasis (quatOfWXYZ identityQuaternionWXYZ) = 1
  rw [quatOfWXYZ_identity, quatToBasis_identityQuat]

/-- Concrete stereo model for the calibration witness: the spec scenario
with fx = fy = 500, cx = 320, cy = 240 and baseline 0.12. -/
def sampleModel : StereoModel :=
  { left := { cx := 320, cy := 240, fx := 500, fy := 500 }
    right := { cx := 320, cy := 240, fx := 500, fy := 500 }
    baseline := 3/25 }

/-- Witness for C4 at the spec's concrete calibration scenario: baseline
0.12 gives translation exactly (-0.12, 0, 0) and identity rotation. -/
theorem initOdometer_extrinsics_witness :
    (0 : ℚ) < 3/25 ∧
    ((initOdometer sampleModel { width := 640, height := 480 }
        { width := 640, height := 480 }).stereoCalibration.right_to_left_rotation
          = identityQuaternionWXYZ ∧
      quatToBasis (quatOfWXYZ (initOdometer sampleModel
          { width := 640, height := 480 }
          { width := 640, height := 480 }).stereoCalibration.right_to_left_rotation)
          = 1 ∧
      (initOdometer sampleModel { width := 640, height := 480 }
        { width := 640, height := 480 }).stereoCalibration.right_to_left_translation
          = ![-(3/25), 0, 0]) :=
  ⟨by norm_num,
    initOdometer_extrinsics_identity_and_baseline sampleModel
      { width := 640, height := 480 } { width := 640, height := 480 }
      (by norm_num [sampleModel])⟩

/-- C7: the broadcast base-frame transform is computed as
`base_to_sensor * pose_transform * base_to_sensor.inverse()`, and this
composition is a no-op when the sensor-to-base offset is the identity
transform: the base pose then equals the sensor pose. -/
theorem base_transform_is_similarity_and_identity_noop (cfg : Config)
    (st : OdoState) (translation : Vec3) (rotation : Quat)
    (lastTranslation aaAxis : Vec3) (aaAngle : ℚ)
    (motionCov : Fin 6 → Fin 6 → ℚ) (baseToSensor : TfTransform)
    (timestamp : ℚ) :
    (mountAndPublish (cfg.withPublishTf true) st translation rotation
        lastTranslation aaAxis aaAngle motionCov true baseToSensor
        timestamp).2.tfOut
      = some
        { transform :=
            composeBaseTransform baseToSensor
              (poseTfTransform translation rotation)
          stamp := timestamp
          frameId := cfg.odomFrameId
          childFrameId := cfg.baseLinkFrameId } ∧
    composeBaseTransform TfTransform.identity
        (poseTfTransform translation rotation)
      = poseTfTransform translation rotation :=
  ⟨rfl, composeBaseTransform_identity (poseTfTransform translation rotation)⟩

/-- C8: with transform publishing enabled, when the sensor-to-base lookup
fails the identity transform is substituted (so the broadcast carries the
sensor pose composed with identity) and the broadcast still happens; the
frame is not failed (odometry and pose still stamped, `last_time_` still
advanced); and the warning fires exactly when no warning has fired yet or at
least 10 time-units elapsed since the last one. -/
theorem lookup_unavailable_identity_substituted_rate_limited (cfg : Config)
    (st : OdoState) (translation : Vec3) (rotation : Quat)
    (lastTranslation aaAxis : Vec3) (aaAngle : ℚ)
    (motionCov : Fin 6 → Fin 6 → ℚ) (baseToSensor : TfTransform)
    (timestamp : ℚ) :
    (mountAndPublish (cfg.withPublishTf true) st translation rotation
        lastTranslation aaAxis aaAngle motionCov false baseToSensor
        timestamp).2.tfOut
      = some
        { transform :=
            composeBaseTransform TfTransform.identity
              (poseTfTransform translation rotation)
          stamp := timestamp
          frameId := cfg.odomFrameId
          childFrameId := cfg.baseLinkFrameId } ∧
    (mountAndPublish (cfg.withPublishTf true) st translation rotation
        lastTranslation aaAxis aaAngle motionCov false baseToSensor
        timestamp).2.odom.stamp = timestamp ∧
    (mountAndPublish (cfg.withPublishTf true) st translation rotation
        lastTranslation aaAxis aaAngle motionCov false baseToSensor
        timestamp).2.pose.stamp = timestamp ∧
    (mountAndPublish (cfg.withPublishTf true) st translation rotation
        lastTranslation aaAxis aaAngle motionCov false baseToSensor
        timestamp).1.lastTime = timestamp ∧
    ((mountAndPublish (cfg.withPublishTf true) st translation rotation
        lastTranslation aaAxis aaAngle motionCov false baseToSensor
        timestamp).2.warned = true
      ↔ st.lastWarn = none ∨
          ∃ t0, st.lastWarn = some t0 ∧ t0 + 10 ≤ timestamp) := by
  refine ⟨rfl, rfl, rfl, rfl, ?_⟩
  show (tfBranch (cfg.withPublishTf true) st false baseToSensor translation
    rotation timestamp).2.1 = true ↔ _
  rcases hw : st.lastWarn with _ | t0 <;>
    simp [tfBranch, throttleWarn, Config.withPublishTf, hw] <;>
    split_ifs with hcond <;> simp [hcond]

/-- C9: when `publish_tf` is disabled no transform broadcast is produced,
while the odometry and pose messages are identical to those produced with
`publish_tf` enabled. -/
theorem publish_tf_disabled_no_broadcast_same_messages (cfg : Config)
    (st : OdoState) (translation : Vec3) (rotation : Quat)
    (lastTranslation aaAxis : Vec3) (aaAngle : ℚ)
    (motionCov : Fin 6 → Fin 6 → ℚ) (canTransform : Bool)
    (baseToSensor : TfTransform) (timestamp : ℚ) :
    (mountAndPublish (cfg.withPublishTf false) st translation rotation
        lastTranslation aaAxis aaAngle motionCov canTransform baseToSensor
        timestamp).2.tfOut = none ∧
    (mountAndPublish (cfg.withPublishTf false) st translation rotation
        lastTranslation aaAxis aaAngle motionCov canTransform baseToSensor
        timestamp).2.odom
      = (mountAndPublish (cfg.withPublishTf true) st translation rotation
          lastTranslation aaAxis aaAngle motionCov canTransform baseToSensor
          timestamp).2.odom ∧
    (mountAndPublish (cfg.withPublishTf false) st translation rotation
        lastTranslation aaAxis aaAngle motionCov canTransform baseToSensor
        timestamp).2.pose
      = (mountAndPublish (cfg.withPublishTf true) st translation rotation
          lastTranslation aaAxis aaAngle motionCov canTransform baseToSensor
          timestamp).2.pose :=
  ⟨rfl, rfl, rfl⟩

/-- C10: the pose carried in the odometry and pose-only messages is the
engine's sensor-frame absolute pose unmodified, and neither the `publish_tf`
setting nor the availability or value of the sensor-to-base offset changes
those two messages. -/
theorem odom_and_pose_carry_sensor_pose_unmodified (cfg : Config)
    (st : OdoState) (translation : Vec3) (rotation : Quat)
    (lastTranslation aaAxis : Vec3) (aaAngle : ℚ)
    (motionCov : Fin 6 → Fin 6 → ℚ) (b b' canTransform canTransform' : Bool)
    (baseToSensor baseToSensor' : TfTransform) (timestamp : ℚ) :
    (mountAndPublish (cfg.withPublishTf b) st translation rotation
        lastTranslation aaAxis aaAngle motionCov canTransform baseToSensor
        timestamp).2.odom.position = translation ∧
    (mountAndPublish (cfg.withPublishTf b) st translation rotation
        lastTranslation aaAxis aaAngle motionCov canTransform baseToSensor
        timestamp).2.odom.orientation = rotation ∧
    (mountAndPublish (cfg.withPublishTf b) st translation rotation
        lastTranslation aaAxis aaAngle motionCov canTransform baseToSensor
        timestamp).2.pose.position = translation ∧
    (mountAndPublish (cfg.withPublishTf b) st translation rotation
        lastTranslation aaAxis aaAngle motionCov canTransform baseToSensor
        timestamp).2.pose.orientation = rotation ∧
    (mountAndPublish (cfg.withPublishTf b) st translation rotation
        lastTranslation aaAxis aaAngle motionCov canTransform baseToSensor
        timestamp).2.odom
      = (mountAndPublish (cfg.withPublishTf b') st translation rotation
          lastTranslation aaAxis aaAngle motionCov canTransform' baseToSensor'
          timestamp).2.odom ∧
    (mountAndPublish (cfg.withPublishTf b) st translation rotation
        lastTranslation aaAxis aaAngle motionCov canTransform baseToSensor
        timestamp).2.pose
      = (mountAndPublish (cfg.withPublishTf b') st translation rotation
          lastTranslation aaAxis aaAngle motionCov canTransform' baseToSensor'
          timestamp).2.pose :=
  ⟨rfl, rfl, rfl, rfl, rfl, rfl⟩

/-- C3: when the engine reports a non-SUCCESS status for a frame, no outward
messages are emitted for that frame and the publishing state (in particular
`last_time_`) is untouched; the integrator stays usable, and a subsequent
successful frame computes its velocity from the elapsed time since the last
successful frame's timestamp (`st.odo.lastTime`), not the failed frame's
timestamp. -/
theorem failed_frame_emits_nothing_and_preserves_last_time (cfg : Config)
    (st : NodeState) (ev ev2 : FrameEvent)
    (h : ev.status ≠ MotionEstimateStatusCode.SUCCESS)
    (h2 : ev2.status = MotionEstimateStatusCode.SUCCESS) :
    (imageCallbackStep cfg st ev).2 = none ∧
    (imageCallbackStep cfg st ev).1.odo = st.odo ∧
    (imageCallbackStep cfg (imageCallbackStep cfg st ev).1 ev2).2
      = some (mountAndPublish cfg st.odo ev2.poseTranslation ev2.poseRotation
          ev2.motionTranslation ev2.motionAxis ev2.motionAngle ev2.motionCov
          ev2.canTransform ev2.baseToSensor ev2.timestamp).2 ∧
    (mountAndPublish cfg st.odo ev2.poseTranslation ev2.poseRotation
        ev2.motionTranslation ev2.motionAxis ev2.motionAngle ev2.motionCov
        ev2.canTransform ev2.baseToSensor ev2.timestamp).2.odom.twist
      = computeTwist st.odo.lastTime ev2.timestamp ev2.motionTranslation
          ev2.motionAxis ev2.motionAngle := by
  have hout : (imageCallbackStep cfg st ev).2 = none := by
    simp [imageCallbackStep, h]
  have hodo : (imageCallbackStep cfg st ev).1.odo = st.odo := by
    simp [imageCallbackStep, h]
  have hstep2 : ∀ st' : NodeState, (imageCallbackStep cfg st' ev2).2
      = some (mountAndPublish cfg st'.odo ev2.poseTranslation
          ev2.poseRotation ev2.motionTranslation ev2.motionAxis
          ev2.motionAngle ev2.motionCov ev2.canTransform ev2.baseToSensor
          ev2.timestamp).2 := by
    intro st'
    simp [imageCallbackStep, h2]
  refine ⟨hout, hodo, ?_, rfl⟩
  rw [hstep2 (imageCallbackStep cfg st ev).1, hodo]

/-- Concrete failed-frame event for the C3 witness: the engine reports
insufficient inliers at t = 2. -/
def sampleEventFail : FrameEvent :=
  { stereoModel := sampleModel
    leftSize := { width := 640, height := 480 }
    rightSize := { width := 640, height := 480 }
    status := MotionEstimateStatusCode.INSUFFICIENT_INLIERS
    poseTranslation := { x := 0, y := 0, z := 0 }
    poseRotation := { x := 0, y := 0, z := 0, w := 1 }
    motionTranslation := { x := 0, y := 0, z := 0 }
    motionAxis := { x := 0, y := 0, z := 1 }
    motionAngle := 0
    motionCov := fun _ _ => 0
    canTransform := true
    baseToSensor := TfTransform.identity
    timestamp := 2 }

/-- Concrete successful-frame event for the C3 witness, at t = 3. -/
def sampleEventOk : FrameEvent :=
  { stereoModel := sampleModel
    leftSize := { width := 640, height := 480 }
    rightSize := { width := 640, height := 480 }
    status := MotionEstimateStatusCode.SUCCESS
    poseTranslation := { x := 1, y := 0, z := 0 }
    poseRotation := { x := 0, y := 0, z := 0, w := 1 }
    motionTranslation := { x := 1/2, y := 0, z := 0 }
    motionAxis := { x := 0, y := 0, z := 1 }
    motionAngle := 0
    motionCov := fun _ _ => 0
    canTransform := true
    baseToSensor := TfTransform.identity
    timestamp := 3 }

/-- Node state with an engine already constructed and a last successful
frame at t = 1, used by the C3 witness. -/
def sampleNodeState : NodeState :=
  { engine := some (initOdometer sampleModel { width := 640, height := 480 }
      { width := 640, height := 480 })
    initCount := 1
    odo := { lastTime := 1, lastWarn := none } }

/-- Witness for C3: a failed frame at t = 2 between successful frames at
t = 1 and t = 3 emits nothing, leaves the publishing state alone, and the
t = 3 frame's velocity uses dt measured from t = 1. -/
theorem failed_frame_witness :
    sampleEventFail.status ≠ MotionEstimateStatusCode.SUCCESS ∧
    sampleEventOk.status = MotionEstimateStatusCode.SUCCESS ∧
    ((imageCallbackStep sampleConfig sampleNodeState sampleEventFail).2 = none ∧
      (imageCallbackStep sampleConfig sampleNodeState sampleEventFail).1.odo
        = sampleNodeState.odo ∧
      (imageCallbackStep sampleConfig
          (imageCallbackStep sampleConfig sampleNodeState sampleEventFail).1
          sampleEventOk).2
        = some (mountAndPublish sampleConfig sampleNodeState.odo
            sampleEventOk.poseTranslation sampleEventOk.poseRotation
            sampleEventOk.motionTranslation sampleEventOk.motionAxis
            sampleEventOk.motionAngle sampleEventOk.motionCov
            sampleEventOk.canTransform sampleEventOk.baseToSensor
            sampleEventOk.timestamp).2 ∧
      (mountAndPublish sampleConfig sampleNodeState.odo
          sampleEventOk.poseTranslation sampleEventOk.poseRotation
          sampleEventOk.motionTranslation sampleEventOk.motionAxis
          sampleEventOk.motionAngle sampleEventOk.motionCov
          sampleEventOk.canTransform sampleEventOk.baseToSensor
          sampleEventOk.timestamp).2.odom.twist
        = computeTwist sampleNodeState.odo.lastTime sampleEventOk.timestamp
            sampleEventOk.motionTranslation sampleEventOk.motionAxis
            sampleEventOk.motionAngle) :=
  ⟨by decide, rfl,
    failed_frame_emits_nothing_and_preserves_last_time sampleConfig
      sampleNodeState sampleEventFail sampleEventOk (by decide) rfl⟩

lemma step_preserves_engine (cfg : Config) (st : NodeState) (ev : FrameEvent)
    (h : EngineHandles) (hst : st.engine = some h) :
    (imageCallbackStep cfg st ev).1.engine = some h ∧
    (imageCallbackStep cfg st ev).1.initCount = st.initCount := by
  by_cases hs : ev.status = MotionEstimateStatusCode.SUCCESS <;>
    simp [imageCallbackStep, hst, hs]

lemma runEvents_engine_stable (cfg : Config) (evs : List FrameEvent)
    (st : NodeState) (h : EngineHandles) (hst : st.engine = some h) :
    (runEvents cfg st evs).engine = some h ∧
    (runEvents cfg st evs).initCount = st.initCount := by
  induction evs generalizing st with
  | nil => exact ⟨hst, rfl⟩
  | cons ev evs ih =>
      obtain ⟨he, hc⟩ := step_preserves_engine cfg st ev h hst
      obtain ⟨he2, hc2⟩ := ih (imageCallbackStep cfg st ev).1 he
      exact ⟨he2, by rw [show runEvents cfg st (ev :: evs)
        = runEvents cfg (imageCallbackStep cfg st ev).1 evs from rfl, hc2, hc]⟩

/-- C5: across any sequence of image-pair events starting from process
start, the engine handles are constructed exactly once, on the first event
(from that event's calibration), and every later event reuses them without
reconstruction, whatever calibration values the later events carry. -/
theorem engine_constructed_exactly_once (cfg : Config) (ev : FrameEvent)
    (evs : List FrameEvent) :
    (imageCallbackStep cfg initialNodeState ev).1.engine
      = some (initOdometer ev.stereoModel ev.leftSize ev.rightSize) ∧
    (imageCallbackStep cfg initialNodeState ev).1.initCount = 1 ∧
    (runEvents cfg (imageCallbackStep cfg initialNodeState ev).1 evs).engine
      = some (initOdometer ev.stereoModel ev.leftSize ev.rightSize) ∧
    (runEvents cfg (imageCallbackStep cfg initialNodeState ev).1 evs).initCount
      = 1 := by
  have h1 : (imageCallbackStep cfg initialNodeState ev).1.engine
      = some (initOdometer ev.stereoModel ev.leftSize ev.rightSize) ∧
      (imageCallbackStep cfg initialNodeState ev).1.initCount = 1 := by
    by_cases hs : ev.status = MotionEstimateStatusCode.SUCCESS <;>
      simp [imageCallbackStep, initialNodeState, hs]
  obtain ⟨he, hc⟩ := h1
  obtain ⟨he2, hc2⟩ := runEvents_engine_stable cfg evs _ _ he
  exact ⟨he, hc, he2, by rw [hc2, hc]⟩

end StereoOdometer
